import Mathlib

set_option maxRecDepth 10000
set_option maxHeartbeats 1000000

/-!
Shallow embedding of the parsing core of the Financial-Insight-Engine
repository (`backend/app/services/parser_service.py`) together with the two
collaborator services it feeds (`financial_analysis_service.py`,
`trend_analysis_service.py`).

Python floats are modelled by exact rationals (`ℚ`), Python dicts by
association lists or structures with `Option` fields (a missing key is
`none`), and the regular expressions of the source by executable character
scanners that reproduce the leftmost-match / greedy semantics the source
relies on.
-/

/-! ### Basic character and string utilities -/

/-- A regex word character (`\w` on ASCII input): letters, digits, underscore. -/
def isWordChar (c : Char) : Bool := c.isAlphanum || c == '_'

/-- A character matched by the class `[^a-z0-9]` under `re.IGNORECASE`:
anything that is neither an ASCII letter nor a digit. -/
def isGapChar (c : Char) : Bool := !(c.isAlpha || c.isDigit)

def listPrefixB : List Char → List Char → Bool
  | [], _ => true
  | _ :: _, [] => false
  | a :: as, b :: bs => a == b && listPrefixB as bs

def listInfixB (needle : List Char) : List Char → Bool
  | [] => listPrefixB needle []
  | c :: rest => listPrefixB needle (c :: rest) || listInfixB needle rest

/-- Python `sub in s` substring test. -/
def containsSub (s sub : String) : Bool := listInfixB sub.toList s.toList

/-- Python `str.strip()` (whitespace on both ends). -/
def pyStrip (s : String) : String :=
  String.mk (((s.toList.dropWhile Char.isWhitespace).reverse.dropWhile
     Char.isWhitespace).reverse)

/-- Python `str.strip(chars)` for an explicit character set. -/
def stripTheseChars (cs : List Char) (bad : List Char) : List Char :=
  ((cs.dropWhile (bad.contains ·)).reverse.dropWhile (bad.contains ·)).reverse

/-- `re.split` on maximal runs of characters satisfying `p`; keeps the empty
pieces that Python's `re.split` produces at the ends.  Fuel-driven; call with
fuel `cs.length + 1`. -/
def splitRuns (p : Char → Bool) : Nat → List Char → List (List Char)
  | 0, _ => []
  | _ + 1, [] => [[]]
  | fuel + 1, c :: rest =>
    if p c then [] :: splitRuns p fuel (rest.dropWhile p)
    else
      match splitRuns p fuel rest with
      | [] => [[c]]
      | g :: gs => (c :: g) :: gs

/-- `re.split(r'[\n\r]+', s)`. -/
def splitNewlines (s : String) : List String :=
  (splitRuns (fun c => c == '\n' || c == '\r') (s.length + 1) s.toList).map
    String.mk

/-- The nonempty whitespace-separated words of a string (Python `s.split()`). -/
def pyWords (s : String) : List String :=
  ((splitRuns Char.isWhitespace (s.length + 1) s.toList).filter
    (· ≠ [])).map String.mk

/-- `re.sub(r'\s+', ' ', s)` followed by `.strip()`: single-space joined words. -/
def collapseWs (s : String) : String := String.intercalate " " (pyWords s)

def natOfDigits (cs : List Char) : Nat :=
  cs.foldl (fun a c => a * 10 + (c.toNat - 48)) 0

/-! ### Number normalisation (collaborator, not in the provided sources) -/

/-- Digits with at most one decimal point, at least one digit, nothing else. -/
def parseDecimal (cs : List Char) : Option ℚ :=
  if cs = [] then none
  else
    let intPart := cs.takeWhile (· ≠ '.')
    let rest := cs.dropWhile (· ≠ '.')
    match rest with
    | [] => if intPart.all Char.isDigit then some (natOfDigits intPart) else none
    | '.' :: frac =>
      if intPart.all Char.isDigit && frac.all Char.isDigit &&
          (intPart ≠ [] || frac ≠ []) then
        some ((natOfDigits intPart : ℚ) + (natOfDigits frac : ℚ) / (10 ^ frac.length : ℚ))
      else none
    | _ => none

/-- Modelled from the spec: `parse_number` of `preprocessing_service.py`, which
is imported by the parser but is not among the provided sources.  Per §4.1 of
the spec it parses a numeric-looking token into a float or null: thousands
separators (commas) are dropped, a token wrapped in parentheses denotes a
negative value, and a token without digits (or otherwise unparseable) yields
null. -/
def parse_number (tok : String) : Option ℚ :=
  let cs := tok.toList.filter (· ≠ ',')
  match cs with
  | '(' :: rest =>
    if rest.getLast? = some ')' then
      (parseDecimal rest.dropLast).map (fun q => -q)
    else parseDecimal cs
  | _ => parseDecimal cs

/-- Modelled from the spec: `detect_document_scale` of
`preprocessing_service.py` (not among the provided sources).  Per §4.1/§8 of
the spec it scans the full text for unit-declaration phrases and returns a
`(multiplier, label)` pair with multiplier in `{1, 1e3, 1e5, 1e7}`, defaulting
to `(1.0, "units")`. -/
def detect_document_scale (text : String) : ℚ × String :=
  let up := String.mk (text.toList.map Char.toUpper)
  if containsSub up "CRORE" then (10000000, "crore")
  else if containsSub up "LAKH" then (100000, "lakh")
  else if containsSub up "THOUSAND" then (1000, "thousand")
  else (1, "units")

/-! ### Section splitter (`_split_into_sections`)

Each heading phrase is compiled by `tolerant_pattern` into
`\b c₁ [^a-z0-9]* c₂ [^a-z0-9]* … cₙ [^a-z0-9]* \b` (case-insensitive), the
letters being the phrase's characters with whitespace removed.  We embed that
pattern directly: the letters must appear in order, separated by runs of
non-letter/non-digit characters, with a word boundary before the first letter
and after the trailing gap run. -/

/-- The trailing `[^a-z0-9]*\b` of a tolerant pattern: consume `k ≥ 0` gap
characters (for some `k`) and reach a word boundary.  `prevWord` says whether
the previously consumed character was a word character. -/
def matchEnd : Bool → List Char → Bool
  | pw, [] => pw
  | pw, c :: rs => (pw != isWordChar c) || (isGapChar c && matchEnd (isWordChar c) rs)

def dropGaps : List Char → List Char
  | [] => []
  | c :: rs => if isGapChar c then dropGaps rs else c :: rs

/-- Match the letters of a tolerant pattern (lower-case) against the text,
case-insensitively, allowing `[^a-z0-9]*` between letters, ending with the
`[^a-z0-9]*\b` tail. -/
def matchLetters : List Char → List Char → Bool
  | _, [] => false
  | [], _ :: _ => false
  | l :: ls, c :: rest =>
    c.toLower == l &&
      (if ls.isEmpty then matchEnd true rest else matchLetters ls (dropGaps rest))

/-- Leftmost start index of a tolerant-pattern match (`re.search`).  `prevW`
is whether the character before the current position is a word character
(`false` at the start of the text). -/
def searchTermFrom (letters : List Char) : Nat → Bool → List Char → Option Nat
  | _, _, [] => none
  | i, prevW, c :: rest =>
    if !prevW && matchLetters letters (c :: rest) then some i
    else searchTermFrom letters (i + 1) (isWordChar c) rest

def searchTerm (text term : String) : Option Nat :=
  searchTermFrom ((term.toList.filter (· ≠ ' ')).map Char.toLower) 0 false
    text.toList

/-- The `section_terms` table of `_split_into_sections`, in dict order. -/
def sectionTermsList : List (String × List String) :=
  [("balance_sheet",
    ["balance sheet", "statement of financial position", "balancesheet",
     "financialposition"]),
   ("pnl",
    ["profit and loss", "statement of profit and loss", "statement of profit",
     "profitandloss", "statementofprofitandloss", "operations"]),
   ("cash_flow",
    ["cash flow", "statement of cash flows", "cashflow", "statementofcashflows"]),
   ("changes_in_equity",
    ["changes in equity", "statement of changes in equity", "changesinequity"])]

/-- For each section kind, the position of the first matching phrase (the
`positions` dict of the source, in insertion order). -/
def sectionPositions (t : String) : List (String × Nat) :=
  sectionTermsList.filterMap (fun nt =>
    (nt.2.findSome? (fun term => searchTerm t term)).map (fun p => (nt.1, p)))

/-- Stable insertion keeping earlier entries on ties (Python `sorted` by pos). -/
def insertByPos (x : String × Nat) : List (String × Nat) → List (String × Nat)
  | [] => [x]
  | y :: ys => if y.2 ≤ x.2 then y :: insertByPos x ys else x :: y :: ys

def sortByPos (l : List (String × Nat)) : List (String × Nat) :=
  l.foldl (fun acc x => insertByPos x acc) []

/-- Slice the text into blocks between sorted section positions, keep blocks
longer than 50 characters after stripping. -/
def sliceGo (cs : List Char) (total : Nat) : List (String × Nat) → List (String × String)
  | [] => []
  | (name, start) :: rest =>
    let fin := match rest with
      | (_, s2) :: _ => s2
      | [] => total
    let block := pyStrip (String.mk ((cs.drop start).take (fin - start)))
    (if block.length > 50 then [(name, block)] else []) ++ sliceGo cs total rest

structure SectionBlocks where
  balance_sheet : Option String
  pnl : Option String
  cash_flow : Option String
  changes_in_equity : Option String
deriving Repr, DecidableEq

/-- `_split_into_sections`.  If no phrase matches the whole text is returned
as a single `balance_sheet` block. -/
def split_into_sections (t : String) : SectionBlocks :=
  if t = "" then ⟨none, none, none, none⟩
  else
    let pos := sectionPositions t
    if pos = [] then ⟨some t, none, none, none⟩
    else
      let blocks := sliceGo t.toList t.length (sortByPos pos)
      { balance_sheet := (blocks.find? (·.1 == "balance_sheet")).map (·.2)
        pnl := (blocks.find? (·.1 == "pnl")).map (·.2)
        cash_flow := (blocks.find? (·.1 == "cash_flow")).map (·.2)
        changes_in_equity := (blocks.find? (·.1 == "changes_in_equity")).map (·.2) }

/-! ### Numeric tokens of `_NUM_TOKEN_RE` and the table-like extractor -/

/-- Characters of the class `[0-9,\.()]`. -/
def tokChar1 (c : Char) : Bool :=
  c.isDigit || c == ',' || c == '.' || c == '(' || c == ')'

/-- Match `\(?[0-9][0-9,\.()]*\)?` at the head of the list; the greedy inner
run already absorbs any closing parenthesis.  Returns the token and the rest. -/
def tokenAt1 : List Char → Option (List Char × List Char)
  | [] => none
  | '(' :: rest =>
    match rest with
    | [] => none
    | d :: r2 =>
      if d.isDigit then
        let run := r2.takeWhile tokChar1
        some ('(' :: d :: run, r2.dropWhile tokChar1)
      else none
  | c :: rest =>
    if c.isDigit then
      some (c :: rest.takeWhile tokChar1, rest.dropWhile tokChar1)
    else none

/-- `re.findall(_NUM_TOKEN_RE, line)`: left-to-right non-overlapping scan. -/
def findTokens1 : Nat → List Char → List (List Char)
  | 0, _ => []
  | _ + 1, [] => []
  | fuel + 1, c :: rest =>
    match tokenAt1 (c :: rest) with
    | some (t, r) => t :: findTokens1 fuel r
    | none => findTokens1 fuel rest

/-- `re.sub(_NUM_TOKEN_RE, '', line)`: drop every numeric token. -/
def removeTokens1 : Nat → List Char → List Char
  | 0, _ => []
  | _ + 1, [] => []
  | fuel + 1, c :: rest =>
    match tokenAt1 (c :: rest) with
    | some (_, r) => removeTokens1 fuel r
    | none => c :: removeTokens1 fuel rest

/-- Characters of the class `[0-9\.,]`. -/
def tokChar2 (c : Char) : Bool := c.isDigit || c == '.' || c == ','

/-- Match `\(?[0-9\.,]+\)?` at the head of the list (the simpler token class
used on the matched tail group). -/
def token2At : List Char → Option (List Char × List Char)
  | [] => none
  | '(' :: rest =>
    let run := rest.takeWhile tokChar2
    if run = [] then none
    else
      match rest.dropWhile tokChar2 with
      | ')' :: r3 => some (('(' :: run) ++ [')'], r3)
      | r2 => some ('(' :: run, r2)
  | c :: rest =>
    if tokChar2 c then
      let run := rest.takeWhile tokChar2
      match rest.dropWhile tokChar2 with
      | ')' :: r3 => some ((c :: run) ++ [')'], r3)
      | r2 => some (c :: run, r2)
    else none

/-- `re.findall(r'\(?[0-9\.,]+\)?', s)`. -/
def findTokens2 : Nat → List Char → List (List Char)
  | 0, _ => []
  | _ + 1, [] => []
  | fuel + 1, c :: rest =>
    match token2At (c :: rest) with
    | some (t, r) => t :: findTokens2 fuel r
    | none => findTokens2 fuel rest

def findTokens2Str (t : List Char) : List String :=
  (findTokens2 (t.length + 1) t).map String.mk

/-- The tail of `(TOKEN(?:\s+TOKEN)?)\s*$` starting at a token: one token,
optionally whitespace and a second token (preferred, regex greediness), then
only whitespace to the end of the line. -/
def tryTail (cs : List Char) : Option (List (List Char)) :=
  match tokenAt1 cs with
  | none => none
  | some (t1, r1) =>
    let withoutSecond : Option (List (List Char)) :=
      if r1.all Char.isWhitespace then some [t1] else none
    match r1 with
    | c :: _ =>
      if c.isWhitespace then
        match tokenAt1 (r1.dropWhile Char.isWhitespace) with
        | some (t2, r2) =>
          if r2.all Char.isWhitespace then some [t1, t2] else withoutSecond
        | none => withoutSecond
      else withoutSecond
    | [] => withoutSecond

/-- `re.search` of `(TOKEN(?:\s+TOKEN)?)\s*$`: leftmost start position and the
one or two tokens of group 1. -/
def tailMatchGo : Nat → Nat → List Char → Option (Nat × List (List Char))
  | 0, _, _ => none
  | _ + 1, _, [] => none
  | fuel + 1, pos, c :: rest =>
    match tryTail (c :: rest) with
    | some toks => some (pos, toks)
    | none => tailMatchGo fuel (pos + 1) rest

def tailMatch (cs : List Char) : Option (Nat × List (List Char)) :=
  tailMatchGo (cs.length + 1) 0 cs

/-! The glued-number repair
`([0-9]{1,3}(?:,[0-9]{2,3})+)([0-9]{1,3}(?:,[0-9]{2,3})+)$`: backtracking
alternatives are produced in the regex preference order (greedy quantifiers
first) and the first full parse wins. -/

/-- Candidates for `[0-9]{1,3}` in preference order (3, 2, 1 digits). -/
def digitRunCands (cs : List Char) : List (List Char × List Char) :=
  let d := cs.takeWhile Char.isDigit
  ([3, 2, 1].filter (· ≤ d.length)).map (fun k => (cs.take k, cs.drop k))

/-- Candidates for `,[0-9]{2,3}` in preference order (3 then 2 digits). -/
def commaGroupCands (cs : List Char) : List (List Char × List Char) :=
  match cs with
  | ',' :: rest =>
    let d := (rest.takeWhile Char.isDigit).length
    ([3, 2].filter (· ≤ d)).map (fun k => (',' :: rest.take k, rest.drop k))
  | _ => []

/-- Candidates for `(?:,[0-9]{2,3})+`, preferring more groups (greedy `+`). -/
def commaGroupsPlus : Nat → List Char → List (List Char × List Char)
  | 0, _ => []
  | fuel + 1, cs =>
    (commaGroupCands cs).flatMap (fun gr =>
      ((commaGroupsPlus fuel gr.2).map (fun g2 => (gr.1 ++ g2.1, g2.2))) ++ [gr])

/-- Candidates for one comma-grouped number `[0-9]{1,3}(?:,[0-9]{2,3})+`. -/
def cgNumCands (cs : List Char) : List (List Char × List Char) :=
  (digitRunCands cs).flatMap (fun dr =>
    (commaGroupsPlus (dr.2.length + 1) dr.2).map (fun g => (dr.1 ++ g.1, g.2)))

/-- Match two adjacent comma-grouped numbers ending exactly at the end. -/
def gluedAt (cs : List Char) : Option (List Char × List Char) :=
  (cgNumCands cs).findSome? (fun g1 =>
    (cgNumCands g1.2).findSome? (fun g2 =>
      if g2.2 = [] then some (g1.1, g2.1) else none))

/-- `re.search` of the glued pattern: leftmost position wins. -/
def gluedSearch : Nat → List Char → Option (List Char × List Char)
  | 0, _ => none
  | _ + 1, [] => none
  | fuel + 1, c :: rest =>
    match gluedAt (c :: rest) with
    | some p => some p
    | none => gluedSearch fuel rest

/-! ### `_normalize_item_name` -/

/-- The cut `re.search(r'(.{80,120}?)[:;\.\-\,\n]', name)` for over-long
names: leftmost start, then the lazily smallest length in `[80,120]` whose
next character is one of the punctuation class. -/
def cutPunct (c : Char) : Bool :=
  c == ':' || c == ';' || c == '.' || c == '-' || c == ',' || c == '\n'

def cutLenAt (cs : List Char) : Option (List Char) :=
  (List.range 41).findSome? (fun i =>
    let k := 80 + i
    match cs.drop k with
    | c :: _ => if cutPunct c then some (cs.take k) else none
    | [] => none)

def cutSearch : Nat → List Char → Option (List Char)
  | 0, _ => none
  | _ + 1, [] => none
  | fuel + 1, c :: rest =>
    match cutLenAt (c :: rest) with
    | some g => some g
    | none => cutSearch fuel rest

/-- `name[:120].rsplit(' ', 1)[0]`. -/
def rsplitSpace (cs : List Char) : List Char :=
  if cs.contains ' ' then (cs.reverse.dropWhile (· ≠ ' ')).tail.reverse else cs

/-- Leading/trailing `[\W\d]+` strip: everything except letters and `_`. -/
def keepNameChar (c : Char) : Bool := c.isAlpha || c == '_'

/-- `_normalize_item_name`. -/
def normalize_item_name (name : String) : String :=
  let s1 := (collapseWs name).toList
  let s2 := stripTheseChars s1 [':', ';', ',', '.']
  let s3 :=
    if 120 < s2.length then
      match cutSearch (s2.length + 1) s2 with
      | some g => (pyStrip (String.mk g)).toList
      | none => rsplitSpace (s2.take 120)
    else s2
  let s4 := (s3.dropWhile (fun c => !keepNameChar c)).reverse.dropWhile
    (fun c => !keepNameChar c)
  String.mk s4.reverse

/-! ### Table-like extraction (`_extract_table_like_section`) -/

structure LineItem where
  item : String
  current_period : Option ℚ
  previous_period : Option ℚ
  confidence : String
deriving Repr, DecidableEq

/-- Separator characters of `re.split(r'[;\.\:\-]{1,}\s+', line)`. -/
def punctSep (c : Char) : Bool := c == ';' || c == '.' || c == ':' || c == '-'

/-- `re.split(r'[;\.\:\-]{1,}\s+', line)`: a separator is a maximal run of
punctuation followed by at least one whitespace character (maximal-munch is
faithful here because a shorter punctuation run would still face a
non-whitespace character). -/
def splitPunctWs : Nat → List Char → List (List Char)
  | 0, _ => []
  | _ + 1, [] => [[]]
  | fuel + 1, c :: rest =>
    if punctSep c then
      let afterPunct := (c :: rest).dropWhile punctSep
      match afterPunct with
      | w :: _ =>
        if w.isWhitespace then
          [] :: splitPunctWs fuel (afterPunct.dropWhile Char.isWhitespace)
        else
          match splitPunctWs fuel rest with
          | [] => [[c]]
          | g :: gs => (c :: g) :: gs
      | [] =>
        match splitPunctWs fuel rest with
        | [] => [[c]]
        | g :: gs => (c :: g) :: gs
    else
      match splitPunctWs fuel rest with
      | [] => [[c]]
      | g :: gs => (c :: g) :: gs

/-- Candidate line fragments: newline-split lines, stripped; lines longer than
500 characters are further split on punctuation boundaries and only fragments
whose stripped length exceeds 5 survive. -/
def candidateFrags (txt : String) : List String :=
  (splitNewlines txt).flatMap (fun raw =>
    let line := pyStrip raw
    if line = "" then []
    else if 500 < line.length then
      ((splitPunctWs (line.length + 1) line.toList).map String.mk).filterMap
        (fun f =>
          let g := pyStrip f
          if 5 < g.length then some g else none)
    else [line])

/-- The noise markers of the auditor/signature filter, uppercased. -/
def noiseMarkers : List String :=
  ["DIN", "PARTNER", "DIRECTOR", "CHARTERED ACCOUNTANTS", "MUMBAI", "LLP",
   "CFO", "SECRETARY"]

def hasNoiseMarker (line : String) : Bool :=
  let up := String.mk (line.toList.map Char.toUpper)
  noiseMarkers.any (containsSub up)

/-- The raw (pre-scaling) part of one line of `_extract_table_like_section`:
the normalised label and the numeric value tokens selected for it, or `none`
when the line is noise-filtered or has no numeric token.  The glued-number
repair is applied exactly when a single token was selected. -/
def lineRaw (line : String) : Option (String × List String) :=
  if hasNoiseMarker line then none
  else
    let cs := line.toList
    let nums := findTokens1 (cs.length + 1) cs
    if nums = [] then none
    else
      let nv : String × List String :=
        match tailMatch cs with
        | some (pos, toks) =>
          (pyStrip (String.mk (cs.take pos)), toks.flatMap findTokens2Str)
        | none =>
          (pyStrip (String.mk (removeTokens1 (cs.length + 1) cs)),
           (nums.take 2).map String.mk)
      let name := normalize_item_name nv.1
      let vals :=
        match nv.2 with
        | [v] =>
          match gluedSearch (v.length + 1) v.toList with
          | some (a, b) => [String.mk a, String.mk b]
          | none => [v]
        | l => l
      some (name, vals)

/-- Scaling plus the post-filters and item assembly for one line. -/
def lineItemOf (line : String) (scale : ℚ) : Option LineItem :=
  match lineRaw line with
  | none => none
  | some (name, vals) =>
    let curr := (vals.head?.bind parse_number).map (· * scale)
    let prev := (vals[1]?.bind parse_number).map (· * scale)
    let lname := String.mk (name.toList.map Char.toLower)
    if listPrefixB "note".toList lname.toList ||
        listPrefixB "annexure".toList lname.toList then none
    else if (match curr with
             | some c => |c| < 100 && (pyWords name).length < 3
             | none => false) then none
    else
      some { item := name, current_period := curr, previous_period := prev
             confidence := if curr.isSome then "high" else "low" }

/-- `_extract_table_like_section`. -/
def extract_table_like_section (sectionText : String) (scale : ℚ) :
    List LineItem :=
  if sectionText = "" then []
  else (candidateFrags sectionText).filterMap (fun l => lineItemOf l scale)

/-! ### Key-value extraction (`_extract_simple_kv`) -/

structure KVEntry where
  value : Option ℚ
  previous : Option ℚ
deriving Repr, DecidableEq

/-- Python dict assignment: overwrite in place when the key exists, else
append (insertion order preserved). -/
def dictInsert (l : List (String × KVEntry)) (k : String) (v : KVEntry) :
    List (String × KVEntry) :=
  if l.any (fun kv => kv.1 == k) then
    l.map (fun kv => if kv.1 == k then (k, v) else kv)
  else l ++ [(k, v)]

/-- Python `dict.update`. -/
def dictUpdate (base upd : List (String × KVEntry)) : List (String × KVEntry) :=
  upd.foldl (fun acc kv => dictInsert acc kv.1 kv.2) base

/-- Try the remainder of the kv pattern after group 1:
`\s+(TOKEN)(?:\s+(TOKEN))?\s*$`, yielding the one or two matched tokens. -/
def kvTailAt (r : List Char) : Option (List Char × Option (List Char)) :=
  match r with
  | c :: _ =>
    if c.isWhitespace then
      match tryTail (r.dropWhile Char.isWhitespace) with
      | some [t1] => some (t1, none)
      | some [t1, t2] => some (t1, some t2)
      | _ => none
    else none
  | [] => none

/-- The lazy group-1 loop at a fixed start: lengths 3, 4, …, 200 in order. -/
def kvAtPos (tail : List Char) : Option (List Char × List Char × Option (List Char)) :=
  (List.range 198).findSome? (fun i =>
    let k := 3 + i
    if k ≤ tail.length then
      (kvTailAt (tail.drop k)).map (fun tt => (tail.take k, tt.1, tt.2))
    else none)

/-- `re.search(r'(.{3,200}?)\s+(TOKEN)(?:\s+(TOKEN))?\s*$', line)`: leftmost
start position first, then the lazily smallest group-1 length. -/
def kvMatchGo : Nat → List Char → Option (List Char × List Char × Option (List Char))
  | 0, _ => none
  | _ + 1, [] => none
  | fuel + 1, c :: rest =>
    match kvAtPos (c :: rest) with
    | some m => some m
    | none => kvMatchGo fuel rest

def kvMatch (cs : List Char) : Option (List Char × List Char × Option (List Char)) :=
  kvMatchGo (cs.length + 1) cs

/-- `_extract_simple_kv`. -/
def extract_simple_kv (sectionText : String) (scale : ℚ) :
    List (String × KVEntry) :=
  if sectionText = "" then []
  else
    (splitNewlines sectionText).foldl (fun out raw =>
      let line := pyStrip raw
      if line = "" then out
      else
        match kvMatch line.toList with
        | none => out
        | some (g1, t1, t2) =>
          let key := normalize_item_name (String.mk g1)
          let val1 := (parse_number (String.mk t1)).map (· * scale)
          let val2 := (t2.bind (fun t => parse_number (String.mk t))).map (· * scale)
          dictInsert out key ⟨val1, val2⟩) []

/-! ### Document-wide fallback extraction (`_extract_from_text`) -/

/-- Match one literal word case-insensitively (both sides uppercased). -/
def wordAt (w : List Char) (cs : List Char) : Option (List Char) :=
  match w, cs with
  | [], _ => some cs
  | _ :: _, [] => none
  | a :: ws, c :: rest => if c.toUpper == a then wordAt ws rest else none

/-- A label of words joined by `\s*` (zero or more whitespace). -/
def wordsStarAt : List (List Char) → List Char → Option (List Char)
  | [], cs => some cs
  | [w], cs => wordAt w cs
  | w :: ws, cs =>
    match wordAt w cs with
    | some r => wordsStarAt ws (r.dropWhile Char.isWhitespace)
    | none => none

/-- A label of words joined by `\s+` (at least one whitespace). -/
def wordsPlusAt : List (List Char) → List Char → Option (List Char)
  | [], cs => some cs
  | [w], cs => wordAt w cs
  | w :: ws, cs =>
    match wordAt w cs with
    | some r =>
      match r with
      | c :: _ =>
        if c.isWhitespace then wordsPlusAt ws (r.dropWhile Char.isWhitespace)
        else none
      | [] => none
    | none => none

/-- Leftmost position where one of the label alternatives matches, returning
the rest of the text after the label (`re` alternation preference order). -/
def altSearch (alts : List (List Char → Option (List Char))) :
    Nat → List Char → Option (List Char)
  | 0, _ => none
  | _ + 1, [] => none
  | fuel + 1, c :: rest =>
    match alts.findSome? (fun a => a (c :: rest)) with
    | some r => some r
    | none => altSearch alts fuel rest

/-- Characters starting the captured group of `_extract_from_text`
(`[0-9\)\(]`). -/
def fbStart (c : Char) : Bool := c.isDigit || c == '(' || c == ')'

/-- Characters of the group run `[0-9\.,\(\)-]`. -/
def fbRun (c : Char) : Bool :=
  c.isDigit || c == '.' || c == ',' || c == '(' || c == ')' || c == '-'

/-- The `.*?([0-9\)\(][0-9\.,\(\)-]*)` tail: skip (non-greedily) to the first
group-start character and take the greedy run from it. -/
def fbNumberAfter : Nat → List Char → Option (List Char)
  | 0, _ => none
  | _ + 1, [] => none
  | fuel + 1, c :: rest =>
    if fbStart c then some (c :: rest.takeWhile fbRun)
    else fbNumberAfter fuel rest

/-- Python `float(...)` on the group with `(`, `)` and `,` removed: optional
sign, digits, at most one decimal point (the inputs here cannot carry an
exponent). -/
def pyFloat (cs : List Char) : Option ℚ :=
  let cl := cs.filter (fun c => c ≠ '(' && c ≠ ')' && c ≠ ',')
  match cl with
  | '-' :: rest => (parseDecimal rest).map (fun q => -q)
  | _ => parseDecimal cl

/-- One `_extract_from_text` pattern: find the label (alternatives given as
matchers), then the first numeric-looking group after it, as a float. -/
def fbPattern (alts : List (List Char → Option (List Char))) (cs : List Char) :
    Option ℚ :=
  match altSearch alts (cs.length + 1) cs with
  | some rest => (fbNumberAfter (rest.length + 1) rest).bind pyFloat
  | none => none

structure FallbackExtract where
  balance_sheet : List LineItem
  pnl : List (String × KVEntry)
  cash_flow : List (String × KVEntry)
deriving Repr, DecidableEq

/-- `_extract_from_text`: uppercase, strip commas, collapse whitespace, then
run the fixed battery of label patterns.  The extracted numbers are the raw
floats of the match — no scaling is applied by this function. -/
def extract_from_text (rawText : String) : FallbackExtract :=
  let text := collapseWs (String.mk ((rawText.toList.map Char.toUpper).filter
    (· ≠ ',')))
  let cs := text.toList
  let assets := fbPattern [wordsStarAt ["TOTAL".toList, "ASSETS".toList]] cs
  let equity := fbPattern [wordsStarAt ["TOTAL".toList, "EQUITY".toList]] cs
  let liab := fbPattern
    [wordsStarAt ["TOTAL".toList, "LIABILITIES".toList],
     wordsStarAt ["TOTAL".toList, "CURRENT".toList, "LIABILITIES".toList]] cs
  let revenue := fbPattern
    [wordsPlusAt ["REVENUE".toList],
     wordsPlusAt ["TOTAL".toList, "INCOME".toList],
     wordsPlusAt ["REVENUE".toList, "FROM".toList, "OPERATIONS".toList]] cs
  let profit := fbPattern
    [wordsStarAt ["PROFIT".toList, "FOR".toList, "THE".toList, "PERIOD".toList]] cs
  let bsItem : String → ℚ → LineItem := fun label v =>
    { item := label, current_period := some v, previous_period := none
      confidence := "high" }
  { balance_sheet :=
      (match assets with | some v => [bsItem "TOTAL ASSETS" v] | none => []) ++
      (match equity with | some v => [bsItem "TOTAL EQUITY" v] | none => []) ++
      (match liab with | some v => [bsItem "TOTAL LIABILITIES" v] | none => [])
    pnl :=
      (match revenue with
       | some v => [("Revenue", (⟨some v, none⟩ : KVEntry))]
       | none => []) ++
      (match profit with
       | some v => [("Profit for the Period", (⟨some v, none⟩ : KVEntry))]
       | none => [])
    cash_flow := [] }

/-! ### Document-wide P&L fallback (`_extract_pnl_from_text`) -/

/-- The `\s*[:\-]?\s*([0-9\(\)\.,]+)` tail directly after a label. -/
def pnlNumberAfter (r : List Char) : Option (List Char) :=
  let r1 := r.dropWhile Char.isWhitespace
  let r2 := match r1 with
    | ':' :: rest => rest
    | '-' :: rest => rest
    | _ => r1
  let r3 := r2.dropWhile Char.isWhitespace
  let run := r3.takeWhile (fun c => c.isDigit || c == '(' || c == ')' ||
    c == '.' || c == ',')
  if run = [] then none else some run

/-- Leftmost position where some alternative label is followed by a numeric
token (regex backtracking: a label occurrence without a number is skipped). -/
def pnlSearch (alts : List (List Char → Option (List Char))) :
    Nat → List Char → Option (List Char)
  | 0, _ => none
  | _ + 1, [] => none
  | fuel + 1, c :: rest =>
    match alts.findSome? (fun a => (a (c :: rest)).bind pnlNumberAfter) with
    | some n => some n
    | none => pnlSearch alts fuel rest

/-- `_extract_pnl_from_text`: document-wide revenue/profit search; every found
value is scaled. -/
def extract_pnl_from_text (text : String) (scale : ℚ) :
    List (String × KVEntry) :=
  if text = "" then []
  else
    let cs := text.toList
    let pats : List (List (List Char → Option (List Char)) × String) :=
      [([wordsPlusAt ["TOTAL".toList, "INCOME".toList],
         wordsPlusAt ["TOTAL".toList, "REVENUE".toList],
         wordsPlusAt ["REVENUE".toList, "FROM".toList, "OPERATIONS".toList],
         wordsPlusAt ["REVENUE".toList]], "Revenue"),
       ([wordsPlusAt ["PROFIT".toList, "FOR".toList, "THE".toList, "PERIOD".toList],
         wordsPlusAt ["NET".toList, "PROFIT".toList],
         wordsPlusAt ["PROFIT".toList, "AFTER".toList, "TAX".toList],
         wordsPlusAt ["PAT".toList]], "Profit for the Period"),
       ([wordsPlusAt ["PROFIT".toList, "BEFORE".toList, "TAX".toList],
         wordsPlusAt ["PBT".toList]], "Profit Before Tax")]
    pats.foldl (fun out pl =>
      match pnlSearch pl.1 (cs.length + 1) cs with
      | some raw =>
        match parse_number (String.mk raw) with
        | some n => dictInsert out pl.2 ⟨some (n * scale), none⟩
        | none => out
      | none => out) []

/-! ### Metadata extraction (`_extract_meta`, `_detect_period_hint`) -/

/-- Exact literal match (case-sensitive). -/
def litAt : List Char → List Char → Option (List Char)
  | [], cs => some cs
  | _, [] => none
  | p :: ps, c :: cs => if c == p then litAt ps cs else none

/-- Characters of the class `[A-Za-z&\.\s]`. -/
def candClass (c : Char) : Bool :=
  c.isAlpha || c == '&' || c == '.' || c.isWhitespace

/-- The `(?:LIMITED|LTD\.)\b` alternation at the current lazy point.  After
`LIMITED` the boundary needs a non-word character (or the end); after the
non-word `.` of `LTD.` the boundary needs a following word character. -/
def suffixCheck (cs : List Char) : Option (Nat × List Char) :=
  let lim :=
    match wordAt "LIMITED".toList cs with
    | some rest =>
      match rest with
      | [] => some (7, ([] : List Char))
      | c :: _ => if isWordChar c then none else some (7, rest)
    | none => none
  match lim with
  | some r => some r
  | none =>
    match wordAt "LTD.".toList cs with
    | some rest =>
      match rest with
      | c :: _ => if isWordChar c then some (4, rest) else none
      | [] => none
    | none => none

/-- The lazy `[A-Za-z&\.\s]+?` run: after each consumed class character, try
the suffix alternation; the first success wins. -/
def candRun : Nat → List Char → List Char → Option (List Char × List Char)
  | 0, _, _ => none
  | _ + 1, _, [] => none
  | fuel + 1, acc, c :: rest =>
    if candClass c then
      match suffixCheck rest with
      | some (n, r) => some ((c :: acc).reverse ++ rest.take n, r)
      | none => candRun fuel (c :: acc) rest
    else none

/-- One candidate match `\b([A-Z][A-Za-z&\.\s]+?(?:LIMITED|LTD\.))\b`
starting exactly here (the leading boundary is checked by the caller). -/
def candAt (cs : List Char) : Option (List Char × List Char) :=
  match cs with
  | c :: rest =>
    if c.isAlpha then
      (candRun (rest.length + 1) [] rest).map (fun p => (c :: p.1, p.2))
    else none
  | [] => none

/-- `re.findall` of the company-candidate pattern: non-overlapping
left-to-right scan with a word boundary before each match. -/
def candScan : Nat → Bool → List Char → List String
  | 0, _, _ => []
  | _ + 1, _, [] => []
  | fuel + 1, prevW, c :: rest =>
    if !prevW then
      match candAt (c :: rest) with
      | some (m, r) => String.mk m :: candScan fuel (isWordChar (m.getLastD 'x')) r
      | none => candScan fuel (isWordChar c) rest
    else candScan fuel (isWordChar c) rest

def blacklistWords : List String :=
  ["BSE", "NSE", "EXCHANGE", "SOCIETE", "LUXEMBOURG", "SEBI", "BOARD",
   "PHIROZE", "STOCK"]

/-- `\bWORD\b` search (case-insensitive) inside a candidate. -/
def wordBoundSearch (w : List Char) : Bool → List Char → Bool
  | _, [] => false
  | prevW, c :: rest =>
    (!prevW &&
      (match wordAt w (c :: rest) with
       | some r =>
         match r with
         | [] => true
         | d :: _ => !isWordChar d
       | none => false)) ||
    wordBoundSearch w (isWordChar c) rest

def blacklistHit (cand : String) : Bool :=
  blacklistWords.any (fun w => wordBoundSearch w.toList false cand.toList)

/-- Python `max(candidates, key=len)`: first candidate of maximal length. -/
def maxByLen : List String → Option String
  | [] => none
  | c :: rest =>
    some (rest.foldl (fun best x => if best.length < x.length then x else best) c)

/-- `(?:Ltd\.?|LIMITED)` with nothing after it (no boundary in this pattern). -/
def ltdSuffixAt (cs : List Char) : Bool :=
  (wordAt "LTD".toList cs).isSome || (wordAt "LIMITED".toList cs).isSome

/-- Characters of the class `[A-Za-z\s&\.]`. -/
def fb2Class (c : Char) : Bool :=
  c.isAlpha || c.isWhitespace || c == '&' || c == '.'

/-- Greedy group `([A-Z][A-Za-z\s&\.]+)` followed by `\s+(?:Ltd\.?|LIMITED)`:
the longest class run that still leaves whitespace and the suffix wins. -/
def fb2Group (cs : List Char) : Option (List Char) :=
  match cs with
  | c0 :: rest =>
    if c0.isAlpha then
      let m := rest.takeWhile fb2Class
      (List.range m.length).findSome? (fun i =>
        let j := m.length - i
        if 1 ≤ j then
          let after := rest.drop j
          match after with
          | w :: _ =>
            if w.isWhitespace &&
                ltdSuffixAt (after.dropWhile Char.isWhitespace) then
              some (c0 :: rest.take j)
            else none
          | [] => none
        else none)
    else none
  | [] => none

/-- `(?:For\s+)?` prefers consuming the prefix. -/
def fb2At (cs : List Char) : Option (List Char) :=
  let withFor :=
    match wordAt "FOR".toList cs with
    | some r =>
      match r with
      | w :: _ =>
        if w.isWhitespace then fb2Group (r.dropWhile Char.isWhitespace) else none
      | [] => none
    | none => none
  match withFor with
  | some g => some g
  | none => fb2Group cs

def fb2Search : Nat → List Char → Option (List Char)
  | 0, _ => none
  | _ + 1, [] => none
  | fuel + 1, c :: rest =>
    match fb2At (c :: rest) with
    | some g => some g
    | none => fb2Search fuel rest

/-- Index of the first case-insensitive occurrence of a literal. -/
def findSubIdx (w : List Char) : Nat → Nat → List Char → Option Nat
  | 0, _, _ => none
  | _ + 1, _, [] => none
  | fuel + 1, i, c :: rest =>
    if (wordAt w (c :: rest)).isSome then some i
    else findSubIdx w fuel (i + 1) rest

/-- `([A-Z][A-Za-z&\.\s]+)\s*(?=Regd\. Office)`: the group runs from the
first letter that reaches the lookahead through class characters only, up to
the occurrence of "Regd. Office" (the greedy group absorbs interior
whitespace; `\s*` is left empty). -/
def regdGroup (cs : List Char) : Option (List Char) :=
  match findSubIdx "REGD. OFFICE".toList (cs.length + 1) 0 cs with
  | none => none
  | some o =>
    (List.range cs.length).findSome? (fun p =>
      if p + 2 ≤ o then
        let seg := (cs.drop p).take (o - p)
        match seg with
        | c0 :: segRest =>
          if c0.isAlpha && segRest.all candClass then some seg else none
        | [] => none
      else none)

/-- Prefix literals of the reporting-period pattern. -/
def periodPrefixes : List String :=
  ["AS AT", "AS ON", "QUARTER ENDED", "HALF YEAR ENDED", "YEAR ENDED"]

/-- Characters of the class `[A-Za-z0-9 ,\-]`. -/
def periodClass (c : Char) : Bool :=
  c.isAlphanum || c == ' ' || c == ',' || c == '-'

/-- Four consecutive digits at the head. -/
def fourDigitsAt : List Char → Bool
  | a :: b :: c :: d :: _ => a.isDigit && b.isDigit && c.isDigit && d.isDigit
  | _ => false

/-- `[A-Za-z0-9 ,\-]+[0-9]{4}` inside the class run: some split with at least
one class character before four digits. -/
def fourDigitsInsideFrom1 (run : List Char) : Bool :=
  match run with
  | [] => false
  | _ :: rest => go rest
where
  go : List Char → Bool
    | [] => false
    | l@(_ :: r) => fourDigitsAt l || go r

def periodAt (cs : List Char) : Bool :=
  periodPrefixes.any (fun p =>
    match wordAt p.toList cs with
    | some r =>
      match r with
      | w :: _ =>
        if w.isWhitespace then
          fourDigitsInsideFrom1 ((r.dropWhile Char.isWhitespace).takeWhile periodClass)
        else false
      | [] => false
    | none => false)

def periodFound : Nat → List Char → Bool
  | 0, _ => false
  | _ + 1, [] => false
  | fuel + 1, c :: rest => periodAt (c :: rest) || periodFound fuel rest

/-- The two fiscal-year branch expressions of `_detect_period_hint`:
`(year + 1) % 100` is the March branch, `year % 100 + 1` the branch for the
other three quarter-end months. -/
def fyMarch (year : Nat) : Nat := (year + 1) % 100

def fyOther (year : Nat) : Nat := year % 100 + 1

/-- `20\d{2}` after an optional comma and whitespace. -/
def yearAt (after : List Char) : Option Nat :=
  let a2 := match after with
    | ',' :: r => r
    | _ => after
  let a3 := a2.dropWhile Char.isWhitespace
  match a3 with
  | '2' :: '0' :: y1 :: y2 :: _ =>
    if y1.isDigit && y2.isDigit then
      some (2000 + 10 * (y1.toNat - 48) + (y2.toNat - 48))
    else none
  | _ => none

/-- `\d{1,2},?\s*(20\d{2})` with the greedy two-digit day tried first. -/
def dayYearAt (r1 : List Char) : Option Nat :=
  let try2 := match r1 with
    | d1 :: d2 :: r2 => if d1.isDigit && d2.isDigit then yearAt r2 else none
    | _ => none
  match try2 with
  | some y => some y
  | none =>
    match r1 with
    | d1 :: r2 => if d1.isDigit then yearAt r2 else none
    | [] => none

def monthNames : List String := ["June", "September", "December", "March"]

/-- `(June|September|December|March)\s+\d{1,2},?\s*(20\d{2})` at this
position (the month literal is case-sensitive in the source). -/
def periodHintAt (cs : List Char) : Option (String × Nat) :=
  monthNames.findSome? (fun mn =>
    match litAt mn.toList cs with
    | some rest =>
      match rest with
      | w :: _ =>
        if w.isWhitespace then
          (dayYearAt (rest.dropWhile Char.isWhitespace)).map (fun y => (mn, y))
        else none
      | [] => none
    | none => none)

def periodHintScan : Nat → List Char → Option (String × Nat)
  | 0, _ => none
  | _ + 1, [] => none
  | fuel + 1, c :: rest =>
    match periodHintAt (c :: rest) with
    | some m => some m
    | none => periodHintScan fuel rest

def quarterOf : String → String
  | "june" => "Q1"
  | "september" => "Q2"
  | "december" => "Q3"
  | "march" => "Q4"
  | _ => ""

/-- `_detect_period_hint`. -/
def detect_period_hint (text : String) : Option String :=
  (periodHintScan (text.length + 1) text.toList).map (fun my =>
    let month := String.mk (my.1.toList.map Char.toLower)
    let fy := if month = "march" then fyMarch my.2 else fyOther my.2
    quarterOf month ++ " FY" ++ toString fy)

structure Meta where
  company : String
  unit : String
  period_hint : Option String
deriving Repr, DecidableEq

/-- `_extract_meta`. -/
def extract_meta (text : String) (unit_label : String) : Meta :=
  let cs := text.toList
  let candidates := candScan (cs.length + 1) false cs
  let filtered := (candidates.filter (fun c => !blacklistHit c)).map pyStrip
  let company1 := maxByLen filtered
  let company2 := match company1 with
    | some c => some c
    | none =>
      (fb2Search (cs.length + 1) cs).map
        (fun g => pyStrip (String.mk g) ++ " Limited")
  let company3 := match company2 with
    | some c => some c
    | none => (regdGroup cs).map (fun g => pyStrip (String.mk g))
  { company := company3.getD "Unknown", unit := unit_label
    period_hint :=
      if periodFound (cs.length + 1) cs then detect_period_hint text else none }

/-! ### Balance validation and the document parser -/

/-- `find_item` of `_validate_basic_balance`: first balance-sheet item whose
upper-cased label contains the key as a substring (a falsy empty label is
skipped). -/
def findItem (bs : List LineItem) (key : String) : Option LineItem :=
  bs.find? (fun it =>
    it.item ≠ "" &&
      containsSub (String.mk (it.item.toList.map Char.toUpper)) key)

/-- One side of `(total_eq.get("current_period", 0) if total_eq else 0)`:
a missing item counts as zero, a found item contributes its (possibly null)
current value. -/
def sideValue (o : Option LineItem) : Option ℚ :=
  match o with
  | none => some 0
  | some it => it.current_period

/-- `_validate_basic_balance`, as observed through the `try/except` of the
orchestrator: `none` when the check passes or does not apply, `some warning`
when it raises.  A found equity/liabilities item whose current value is null
makes Python's `+` raise `TypeError`, which the orchestrator also records as
a warning. -/
def validate_basic_balance (bs : List LineItem) : Option String :=
  match findItem bs "TOTAL ASSETS" with
  | none => none
  | some ta =>
    let eqI := findItem bs "TOTAL EQUITY"
    let liabI := findItem bs "TOTAL LIABILITIES"
    if eqI.isNone && liabI.isNone then none
    else
      match sideValue eqI, sideValue liabI with
      | some e, some l =>
        match ta.current_period with
        | none => none
        | some a =>
          if max 1 (|a| / 1000) < |a - (e + l)| then
            some ("Balance mismatch: Assets=" ++ toString a ++ " vs Eq+Liab="
              ++ toString (e + l))
          else none
      | _, _ => some "unsupported operand type for +: NoneType and float"

structure Sections where
  balance_sheet : List LineItem
  pnl : List (String × KVEntry)
  cash_flow : List (String × KVEntry)
  changes_in_equity : List (String × KVEntry)
deriving Repr, DecidableEq

structure HttpError where
  status : Nat
  detail : String
deriving Repr, DecidableEq

/-- The parsed document.  `sections = none` models the literally empty
`sections: {}` mapping of the narrative short-circuit; `some s` models the
four-key mapping assembled by the main path.  `kpis` and
`validation_warning` model keys that are present only on some paths. -/
structure ParsedDoc where
  meta : Meta
  scale : ℚ
  sections : Option Sections
  tables : List (List String)
  kpis : Option String
  validation_warning : Option String
deriving Repr, DecidableEq

/-- The fixed narrative summary of the short-circuit branch. -/
def noStatementsSummary : String :=
  "No financial statements detected — likely a narrative, CSR, or management discussion section."

/-- Steps 4–6 of the orchestrator: section-based extraction, the P&L
fallback when the pnl mapping is empty, and the document-wide fallback that
fills only still-empty sections when the balance-sheet list is empty. -/
def mainSections (t : String) : Sections :=
  let scale := (detect_document_scale t).1
  let secs := split_into_sections t
  let bs0 := extract_table_like_section (secs.balance_sheet.getD "") scale
  let pnl0 := extract_simple_kv (secs.pnl.getD "") scale
  let cf0 := extract_simple_kv (secs.cash_flow.getD "") scale
  let eq0 := extract_simple_kv (secs.changes_in_equity.getD "") scale
  let pnl1 := if pnl0.isEmpty then dictUpdate pnl0 (extract_pnl_from_text t scale)
    else pnl0
  if bs0.isEmpty then
    let fb := extract_from_text t
    { balance_sheet := if bs0.isEmpty then fb.balance_sheet else bs0
      pnl := if pnl1.isEmpty then fb.pnl else pnl1
      cash_flow := if cf0.isEmpty then fb.cash_flow else cf0
      changes_in_equity := eq0 }
  else
    { balance_sheet := bs0, pnl := pnl1, cash_flow := cf0
      changes_in_equity := eq0 }

/-- `parse_financial_document`.  An empty `cleaned_text` raises the
bad-request `HTTPException`; a detected section block is always a nonempty
string, so the Python truthiness test of the short-circuit condition is
exactly `isSome` here. -/
def parse_financial_document (cleaned_text : String)
    (tables : List (List String)) : Except HttpError ParsedDoc :=
  if cleaned_text = "" then
    .error ⟨400, "Empty cleaned_text"⟩
  else
    let su := detect_document_scale cleaned_text
    let secs := split_into_sections cleaned_text
    if secs.balance_sheet.isNone && secs.pnl.isNone then
      .ok { meta := extract_meta cleaned_text "units", scale := 1
            sections := none, tables := tables
            kpis := some noStatementsSummary, validation_warning := none }
    else
      .ok { meta := extract_meta cleaned_text su.2, scale := su.1
            sections := some (mainSections cleaned_text), tables := tables
            kpis := none
            validation_warning :=
              validate_basic_balance (mainSections cleaned_text).balance_sheet }

/-! ### KPI computation (`financial_analysis_service.compute_kpis`) -/

def upperStr (s : String) : String := String.mk (s.toList.map Char.toUpper)

/-- Python truthiness of a possibly missing float. -/
def truthyQ : Option ℚ → Bool
  | none => false
  | some x => decide (x ≠ 0)

/-- Floor of a rational as floor division of numerator by denominator. -/
def ratFloor (q : ℚ) : ℤ := Int.fdiv q.num q.den

/-- Python `round` at 0 decimals: nearest, ties to even (banker's rounding),
idealised over exact rationals. -/
def pyRound (q : ℚ) : ℤ :=
  let f := ratFloor q
  let frac := q - (f : ℚ)
  if frac = 1 / 2 then (if f % 2 = 0 then f else f + 1)
  else if frac < 1 / 2 then f else f + 1

/-- Python `round(x, 2)`. -/
def round2 (q : ℚ) : ℚ := (pyRound (q * 100) : ℚ) / 100

/-- `_find_single_value`: current value of the first balance-sheet item whose
upper-cased label contains one of the key snippets (null items fall through
to null just as in the source). -/
def find_single_value (items : List LineItem) (keys : List String) : Option ℚ :=
  (items.find? (fun it =>
    it.item ≠ "" && keys.any (fun k => containsSub (upperStr it.item) k))).bind
    (fun it => it.current_period)

/-- `_extract_numeric` on a label→entry mapping (the list branch of the
source is unreachable for documents produced by the parser, whose cash-flow
section is always a mapping). -/
def extract_numeric (sec : List (String × KVEntry)) (keys : List String) :
    Option ℚ :=
  if sec.isEmpty then none
  else
    (sec.find? (fun kv =>
      keys.any (fun k => containsSub (upperStr kv.1) k))).bind
      (fun kv => kv.2.value)

structure Kpis where
  net_profit_margin_pct : Option ℚ
  debt_to_equity : Option ℚ
  equity_to_assets_pct : Option ℚ
  asset_turnover_ratio : Option ℚ
  return_on_equity_pct : Option ℚ
  free_cash_flow : Option ℚ
  revenue : Option ℚ
  net_profit : Option ℚ
  total_assets : Option ℚ
  total_equity : Option ℚ
  total_liabilities : Option ℚ
  summary : String
deriving Repr, DecidableEq

def emptyKpis : Kpis :=
  { net_profit_margin_pct := none, debt_to_equity := none
    equity_to_assets_pct := none, asset_turnover_ratio := none
    return_on_equity_pct := none, free_cash_flow := none, revenue := none
    net_profit := none, total_assets := none, total_equity := none
    total_liabilities := none, summary := "" }

/-- Python dict emptiness of the metrics dict before the summary is added. -/
def kpisMetricsEmpty (m : Kpis) : Bool :=
  m.net_profit_margin_pct.isNone && m.debt_to_equity.isNone &&
  m.equity_to_assets_pct.isNone && m.asset_turnover_ratio.isNone &&
  m.return_on_equity_pct.isNone && m.free_cash_flow.isNone &&
  m.revenue.isNone && m.net_profit.isNone && m.total_assets.isNone &&
  m.total_equity.isNone && m.total_liabilities.isNone

/-- Rendering of a float in an f-string (modelled as the rational's literal). -/
def fmtQ (q : ℚ) : String := toString q

/-- `_generate_summary`. -/
def generate_summary (m : Kpis) : String :=
  if kpisMetricsEmpty m then "Insufficient parsed metrics for summary."
  else
    let parts : List String :=
      (match m.net_profit_margin_pct with
       | some v => ["Net profit margin ~ " ++ fmtQ v ++ "%"]
       | none => []) ++
      (match m.debt_to_equity with
       | some v => ["Debt-to-equity ratio ~ " ++ fmtQ v]
       | none => []) ++
      (match m.equity_to_assets_pct with
       | some v => ["Equity-to-assets ratio ~ " ++ fmtQ v ++ "%"]
       | none => []) ++
      (match m.free_cash_flow with
       | some v => ["Free cash flow ≈ ₹" ++ fmtQ v ++ " crore"]
       | none => []) ++
      (match m.return_on_equity_pct with
       | some v => ["Return on equity ~ " ++ fmtQ v ++ "%"]
       | none => []) ++
      (match m.asset_turnover_ratio with
       | some v => ["Asset turnover ratio ~ " ++ fmtQ v]
       | none => [])
    let parts2 :=
      if parts.isEmpty then
        match m.revenue, m.net_profit with
        | some r, some np =>
          ["Revenue: ₹" ++ fmtQ r ++ ", Net profit: ₹" ++ fmtQ np]
        | _, _ => []
      else parts
    let joined := String.intercalate "; " parts2
    if joined = "" then "Insufficient parsed data." else joined

def bsOf (p : ParsedDoc) : List LineItem :=
  (p.sections.map (·.balance_sheet)).getD []

def pnlOf (p : ParsedDoc) : List (String × KVEntry) :=
  (p.sections.map (·.pnl)).getD []

def cfOf (p : ParsedDoc) : List (String × KVEntry) :=
  (p.sections.map (·.cash_flow)).getD []

/-- `compute_kpis`.  The scale-correction heuristic of the source recomputes
the local `revenue`/`net_profit` values after the raw values have been stored
(`_corrected` below) and never uses them again. -/
def compute_kpis (parsed : ParsedDoc) : Kpis :=
  let bs := bsOf parsed
  let pnl := pnlOf parsed
  let cf := cfOf parsed
  let total_assets := find_single_value bs ["TOTAL ASSETS"]
  let total_equity := find_single_value bs ["TOTAL EQUITY"]
  let total_liabilities := find_single_value bs ["TOTAL LIABILITIES"]
  let revenue := extract_numeric pnl ["REVENUE", "TOTAL INCOME"]
  let net_profit := extract_numeric pnl ["PROFIT", "NET PROFIT", "PROFIT FOR THE PERIOD"]
  let npm := if truthyQ revenue && truthyQ net_profit then
      some (round2 (net_profit.getD 0 / revenue.getD 0 * 100)) else none
  let d2e := if truthyQ total_equity && truthyQ total_liabilities then
      some (round2 (total_liabilities.getD 0 / total_equity.getD 0)) else none
  let e2a := if truthyQ total_assets && truthyQ total_equity then
      some (round2 (total_equity.getD 0 / total_assets.getD 0 * 100)) else none
  let atr := if truthyQ total_assets && truthyQ revenue then
      some (round2 (revenue.getD 0 / total_assets.getD 0)) else none
  let roe := if truthyQ total_equity && truthyQ net_profit then
      some (round2 (net_profit.getD 0 / total_equity.getD 0 * 100)) else none
  let operating_cf := extract_numeric cf
    ["NET CASH GENERATED", "OPERATING", "CASH GENERATED FROM OPERATIONS"]
  let capex := extract_numeric cf ["Purchase", "CAPEX"]
  let fcf := if operating_cf.isSome && capex.isSome then
      some (round2 (operating_cf.getD 0 - capex.getD 0)) else none
  let base : Kpis :=
    { net_profit_margin_pct := npm, debt_to_equity := d2e
      equity_to_assets_pct := e2a, asset_turnover_ratio := atr
      return_on_equity_pct := roe, free_cash_flow := fcf, revenue := revenue
      net_profit := net_profit, total_assets := total_assets
      total_equity := total_equity, total_liabilities := total_liabilities
      summary := "" }
  let _corrected : ℚ × ℚ :=
    if truthyQ revenue && truthyQ net_profit &&
        decide (net_profit.getD 0 > 5 * revenue.getD 0) then
      if revenue.getD 0 < 1000 then (revenue.getD 0 * 1000, net_profit.getD 0)
      else if net_profit.getD 0 > 1000000 then
        (revenue.getD 0, net_profit.getD 0 / 100)
      else (revenue.getD 0, net_profit.getD 0)
    else (revenue.getD 0, net_profit.getD 0)
  { base with summary := generate_summary base }

/-- The refinement target, following the spec's words: `compute_kpis` with
the "profit > 5× revenue ⇒ rescale" correction branch removed entirely. -/
def compute_kpis_without_correction (parsed : ParsedDoc) : Kpis :=
  let bs := bsOf parsed
  let pnl := pnlOf parsed
  let cf := cfOf parsed
  let total_assets := find_single_value bs ["TOTAL ASSETS"]
  let total_equity := find_single_value bs ["TOTAL EQUITY"]
  let total_liabilities := find_single_value bs ["TOTAL LIABILITIES"]
  let revenue := extract_numeric pnl ["REVENUE", "TOTAL INCOME"]
  let net_profit := extract_numeric pnl ["PROFIT", "NET PROFIT", "PROFIT FOR THE PERIOD"]
  let npm := if truthyQ revenue && truthyQ net_profit then
      some (round2 (net_profit.getD 0 / revenue.getD 0 * 100)) else none
  let d2e := if truthyQ total_equity && truthyQ total_liabilities then
      some (round2 (total_liabilities.getD 0 / total_equity.getD 0)) else none
  let e2a := if truthyQ total_assets && truthyQ total_equity then
      some (round2 (total_equity.getD 0 / total_assets.getD 0 * 100)) else none
  let atr := if truthyQ total_assets && truthyQ revenue then
      some (round2 (revenue.getD 0 / total_assets.getD 0)) else none
  let roe := if truthyQ total_equity && truthyQ net_profit then
      some (round2 (net_profit.getD 0 / total_equity.getD 0 * 100)) else none
  let operating_cf := extract_numeric cf
    ["NET CASH GENERATED", "OPERATING", "CASH GENERATED FROM OPERATIONS"]
  let capex := extract_numeric cf ["Purchase", "CAPEX"]
  let fcf := if operating_cf.isSome && capex.isSome then
      some (round2 (operating_cf.getD 0 - capex.getD 0)) else none
  let base : Kpis :=
    { net_profit_margin_pct := npm, debt_to_equity := d2e
      equity_to_assets_pct := e2a, asset_turnover_ratio := atr
      return_on_equity_pct := roe, free_cash_flow := fcf, revenue := revenue
      net_profit := net_profit, total_assets := total_assets
      total_equity := total_equity, total_liabilities := total_liabilities
      summary := "" }
  { base with summary := generate_summary base }

/-! ### Trend aggregation (`trend_analysis_service.aggregate_periods`) -/

/-- The numeric keys a `compute_kpis` result can carry (the `summary` string
is not numeric and is skipped by the `isinstance` check of the source). -/
inductive Metric where
  | net_profit_margin_pct
  | debt_to_equity
  | equity_to_assets_pct
  | asset_turnover_ratio
  | return_on_equity_pct
  | free_cash_flow
  | revenue
  | net_profit
  | total_assets
  | total_equity
  | total_liabilities
deriving Repr, DecidableEq

def getMetric (k : Kpis) : Metric → Option ℚ
  | .net_profit_margin_pct => k.net_profit_margin_pct
  | .debt_to_equity => k.debt_to_equity
  | .equity_to_assets_pct => k.equity_to_assets_pct
  | .asset_turnover_ratio => k.asset_turnover_ratio
  | .return_on_equity_pct => k.return_on_equity_pct
  | .free_cash_flow => k.free_cash_flow
  | .revenue => k.revenue
  | .net_profit => k.net_profit
  | .total_assets => k.total_assets
  | .total_equity => k.total_equity
  | .total_liabilities => k.total_liabilities

structure TsEntry where
  meta : Meta
  kpis : Kpis
deriving Repr, DecidableEq

structure CompEntry where
  latest : ℚ
  previous : ℚ
  growth_pct : Option ℚ
deriving Repr, DecidableEq

structure Comparisons where
  periods : List String
  metrics : Metric → Option CompEntry

structure AggResult where
  timeseries : List (String × TsEntry)
  comparisons : Option Comparisons

/-- Python dict assignment on the timeseries mapping. -/
def tsInsert (l : List (String × TsEntry)) (k : String) (v : TsEntry) :
    List (String × TsEntry) :=
  if l.any (fun kv => kv.1 == k) then
    l.map (fun kv => if kv.1 == k then (k, v) else kv)
  else l ++ [(k, v)]

/-- `meta.get("period_hint") or meta.get("company") or f"period_{n+1}"`. -/
def periodKeyOf (m : Meta) (n : Nat) : String :=
  let fallback := if m.company ≠ "" then m.company else "period_" ++ toString (n + 1)
  match m.period_hint with
  | some s => if s ≠ "" then s else fallback
  | none => fallback

def buildTimeseries (docs : List ParsedDoc) : List (String × TsEntry) :=
  docs.foldl (fun ts p =>
    tsInsert ts (periodKeyOf p.meta ts.length) ⟨p.meta, compute_kpis p⟩) []

/-- Code-point lexicographic order on strings (Python `sorted`). -/
def listLeChars : List Char → List Char → Bool
  | [], _ => true
  | _ :: _, [] => false
  | a :: as, b :: bs => if a < b then true else if b < a then false else listLeChars as bs

def strLeB (a b : String) : Bool := listLeChars a.toList b.toList

def insSortStr (x : String) : List String → List String
  | [] => [x]
  | y :: ys => if strLeB y x then y :: insSortStr x ys else x :: y :: ys

def sortStrings (l : List String) : List String :=
  l.foldl (fun acc x => insSortStr x acc) []

/-- The inner comparison loop: every metric numeric in both period results
gets latest, previous and the rounded growth percentage, with a zero previous
value producing a null growth. -/
def compareMetrics (latestK prevK : Kpis) : Metric → Option CompEntry :=
  fun m =>
    match getMetric latestK m, getMetric prevK m with
    | some l, some p =>
      some ⟨l, p, if p = 0 then none else some (round2 ((l - p) / |p| * 100))⟩
    | _, _ => none

def kpisAt (ts : List (String × TsEntry)) (k : String) : Kpis :=
  ((ts.find? (fun kv => kv.1 == k)).map (fun e => e.2.kpis)).getD emptyKpis

def lastD (l : List String) : String := l.getLastD ""

def secondLastD (l : List String) : String := ((l.drop (l.length - 2)).headD "")

/-- `aggregate_periods`. -/
def aggregate_periods (docs : List ParsedDoc) : AggResult :=
  let ts := buildTimeseries docs
  let periods := sortStrings (ts.map (fun kv => kv.1))
  if 2 ≤ periods.length then
    let latest := lastD periods
    let prev := secondLastD periods
    { timeseries := ts
      comparisons :=
        some ⟨[prev, latest], compareMetrics (kpisAt ts latest) (kpisAt ts prev)⟩ }
  else { timeseries := ts, comparisons := none }

/-! ### Concrete documents and texts used to instantiate the theorems -/

/-- A purely narrative text: no financial-statement heading phrase matches
anywhere in it. -/
def narrativeText : String :=
  "The quick brown fox jumped over the lazy dog while reading a long story about weather and mountain trails."

/-- A document declaring crores whose only balance-sheet data line is
auditor-noise-filtered, so only the document-wide fallback extracts a value. -/
def croreFallbackText : String :=
  "balance sheet position data\nTOTAL ASSETS DIN 5000\nfigures in crore here padding padding"

/-- A balanced statement: assets equal equity plus liabilities. -/
def balancedText : String :=
  "balance sheet statement follows here with more text\nTotal Assets 1000\nTotal Equity 600\nTotal Liabilities 400"

/-- An unbalanced statement: assets exceed equity plus liabilities by 200. -/
def unbalancedText : String :=
  "balance sheet statement follows here with more text\nTotal Assets 1000\nTotal Equity 500\nTotal Liabilities 300"

/-- The single line item extracted from "Total Assets 1,234" at scale 1000. -/
def sampleItem : LineItem :=
  { item := "Total Assets", current_period := some 1234000
    previous_period := none, confidence := "high" }

/-- The balance-sheet entry `_extract_from_text` produces for
"TOTAL ASSETS 5000" (note: unscaled). -/
def sampleFallbackItem : LineItem :=
  { item := "TOTAL ASSETS", current_period := some 5000
    previous_period := none, confidence := "high" }

/-- A minimal parsed document with one revenue entry, keyed by a period
label, as consumed by the trend aggregator. -/
def trendDoc (ph : String) (rev : ℚ) : ParsedDoc :=
  { meta := { company := "Unknown", unit := "units", period_hint := some ph }
    scale := 1
    sections := some { balance_sheet := []
                       pnl := [("Revenue", ⟨some rev, none⟩)]
                       cash_flow := [], changes_in_equity := [] }
    tables := [], kpis := none, validation_warning := none }

def trendDocPrev : ParsedDoc := trendDoc "FY24" 100

def trendDocLatest : ParsedDoc := trendDoc "FY25" 120

def trendDocZero : ParsedDoc := trendDoc "FY24" 0

/-- A parsed document whose extracted net profit is zero while revenue is
nonzero. -/
def zeroProfitDoc : ParsedDoc :=
  { meta := { company := "Unknown", unit := "units", period_hint := none }
    scale := 1
    sections := some { balance_sheet := []
                       pnl := [("Revenue", ⟨some 5, none⟩),
                               ("Net Profit", ⟨some 0, none⟩)]
                       cash_flow := [], changes_in_equity := [] }
    tables := [], kpis := none, validation_warning := none }

/-- A parsed document whose extracted revenue, total assets and total equity
are all zero. -/
def zeroRatioDoc : ParsedDoc :=
  { meta := { company := "Unknown", unit := "units", period_hint := none }
    scale := 1
    sections := some
      { balance_sheet :=
          [⟨"TOTAL ASSETS", some 0, none, "high"⟩,
           ⟨"TOTAL EQUITY", some 0, none, "high"⟩]
        pnl := [("Revenue", ⟨some 0, none⟩)]
        cash_flow := [], changes_in_equity := [] }
    tables := [], kpis := none, validation_warning := none }

/-! ### Helper lemmas -/

theorem foldlPreserve {α β : Type} (P : β → Prop) (f : List β → α → List β)
    (hf : ∀ acc a x, (∀ y ∈ acc, P y) → x ∈ f acc a → P x) :
    ∀ (l : List α) (acc : List β), (∀ y ∈ acc, P y) → ∀ x ∈ l.foldl f acc, P x := by
  intro l
  induction l with
  | nil => exact fun acc hacc x hx => hacc x hx
  | cons a as ih =>
    intro acc hacc x hx
    exact ih (f acc a) (fun y hy => hf acc a y hacc hy) x hx

theorem dictInsert_mem_cases (l : List (String × KVEntry)) (k : String)
    (v : KVEntry) (x : String × KVEntry) (h : x ∈ dictInsert l k v) :
    x ∈ l ∨ x = (k, v) := by
  unfold dictInsert at h
  split at h
  · obtain ⟨y, hy, hxy⟩ := List.mem_map.mp h
    by_cases hk : y.1 == k
    · right; rw [if_pos hk] at hxy; exact hxy.symm
    · left; rw [if_neg hk] at hxy; exact hxy ▸ hy
  · rcases List.mem_append.mp h with h1 | h1
    · exact Or.inl h1
    · exact Or.inr (by simpa using h1)

theorem fbPattern_yields_pyFloat (alts : List (List Char → Option (List Char)))
    (cs : List Char) (v : ℚ) (h : fbPattern alts cs = some v) :
    ∃ raw, pyFloat raw = some v := by
  unfold fbPattern at h
  split at h
  · obtain ⟨raw, _, hpf⟩ := Option.bind_eq_some.mp h
    exact ⟨raw, hpf⟩
  · simp at h

theorem tableLike_mem_scaled (txt : String) (scale : ℚ) (it : LineItem)
    (h : it ∈ extract_table_like_section txt scale) :
    ∃ line name vals, line ∈ candidateFrags txt ∧
      lineRaw line = some (name, vals) ∧ it.item = name ∧
      it.current_period = (vals.head?.bind parse_number).map (· * scale) ∧
      it.previous_period = (vals[1]?.bind parse_number).map (· * scale) := by
  unfold extract_table_like_section at h
  split at h
  · simp at h
  · obtain ⟨line, hline, hli⟩ := List.mem_filterMap.mp h
    refine ⟨line, ?_⟩
    unfold lineItemOf at hli
    cases hlr : lineRaw line with
    | none => rw [hlr] at hli; simp at hli
    | some nv =>
      obtain ⟨name, vals⟩ := nv
      rw [hlr] at hli
      dsimp only at hli
      split at hli
      · simp at hli
      · split at hli
        · simp at hli
        · obtain rfl := Option.some_injective _ hli
          exact ⟨name, vals, hline, rfl, rfl, rfl, rfl⟩

theorem kv_mem_scaled (txt : String) (scale : ℚ) (kv : String × KVEntry)
    (h : kv ∈ extract_simple_kv txt scale) :
    ∃ t1 t2, kv.2 = (⟨(parse_number t1).map (· * scale),
      (Option.bind t2 parse_number).map (· * scale)⟩ : KVEntry) := by
  unfold extract_simple_kv at h
  split at h
  · simp at h
  · refine foldlPreserve (fun x => ∃ t1 t2, x.2 =
      (⟨(parse_number t1).map (· * scale),
        (Option.bind t2 parse_number).map (· * scale)⟩ : KVEntry)) _ ?_
      (splitNewlines txt) [] (by simp) kv h
    intro acc a x hacc hx
    dsimp only at hx
    split at hx
    · exact hacc x hx
    · split at hx
      · exact hacc x hx
      · rename_i g1 t1 t2 heq
        rcases dictInsert_mem_cases _ _ _ _ hx with hm | hm
        · exact hacc x hm
        · subst hm
          refine ⟨String.mk t1, t2.map String.mk, ?_⟩
          cases t2 <;> rfl

theorem pnlFallback_mem_scaled (txt : String) (scale : ℚ) (kv : String × KVEntry)
    (h : kv ∈ extract_pnl_from_text txt scale) :
    ∃ raw n, parse_number raw = some n ∧ kv.2.value = some (n * scale) := by
  unfold extract_pnl_from_text at h
  split at h
  · simp at h
  · refine foldlPreserve (fun x => ∃ raw n, parse_number raw = some n ∧
      x.2.value = some (n * scale)) _ ?_ _ [] (by simp) kv h
    intro acc a x hacc hx
    split at hx
    · rename_i raw hraw
      split at hx
      · rename_i n hn
        rcases dictInsert_mem_cases _ _ _ _ hx with hm | hm
        · exact hacc x hm
        · subst hm
          exact ⟨String.mk raw, n, hn, rfl⟩
      · exact hacc x hx
    · exact hacc x hx

theorem fallbackExtract_mem_unscaled (txt : String) (it : LineItem)
    (h : it ∈ (extract_from_text txt).balance_sheet) :
    ∃ raw v, pyFloat raw = some v ∧ it.current_period = some v := by
  unfold extract_from_text at h
  dsimp only at h
  rcases List.mem_append.mp h with h1 | h1
  · rcases List.mem_append.mp h1 with h2 | h2
    · split at h2
      · rename_i v hv
        simp only [List.mem_singleton] at h2
        subst h2
        obtain ⟨raw, hpf⟩ := fbPattern_yields_pyFloat _ _ _ hv
        exact ⟨raw, v, hpf, rfl⟩
      · simp at h2
    · split at h2
      · rename_i v hv
        simp only [List.mem_singleton] at h2
        subst h2
        obtain ⟨raw, hpf⟩ := fbPattern_yields_pyFloat _ _ _ hv
        exact ⟨raw, v, hpf, rfl⟩
      · simp at h2
  · split at h1
    · rename_i v hv
      simp only [List.mem_singleton] at h1
      subst h1
      obtain ⟨raw, hpf⟩ := fbPattern_yields_pyFloat _ _ _ hv
      exact ⟨raw, v, hpf, rfl⟩
    · simp at h1

/-! ### Claim theorems -/

/-- Claim C1, counterexample: on a purely narrative text with no recognizable
financial-statement heading, `parse_financial_document` does NOT return the
empty-sections fixed-summary document — the section splitter falls back to
treating the whole text as a balance-sheet block, so the main path runs: the
output has no `kpis` summary and its sections mapping is the (non-empty)
four-key mapping. -/
theorem C1_counterexample :
    (parse_financial_document narrativeText []).toOption.map
      (fun d => (d.kpis, d.sections.isSome)) = some (none, true) := by
  with_unfolding_all rfl

/-- Claim C1, amended: for every non-empty `cleaned_text` in which no heading
phrase matches at all, `parse_financial_document` takes the main path (the
whole text becomes the balance-sheet block): the result has no `kpis` summary
and a present (four-key) sections mapping.  The empty-sections fixed-summary
short-circuit is reserved for texts where headings were detected but neither
a balance-sheet nor a P&L block survived. -/
theorem C1_amended_no_heading_main_branch (t : String) (tb : List (List String))
    (h1 : t ≠ "") (h2 : sectionPositions t = []) :
    ∃ d, parse_financial_document t tb = .ok d ∧ d.kpis = none ∧
      d.sections.isSome := by
  have hsec : split_into_sections t = ⟨some t, none, none, none⟩ := by
    unfold split_into_sections
    rw [if_neg h1]
    simp [h2]
  unfold parse_financial_document
  rw [if_neg h1]
  simp only [hsec]
  exact ⟨_, rfl, rfl, rfl⟩

theorem C1_amended_witness :
    ∃ d, parse_financial_document narrativeText [] = .ok d ∧ d.kpis = none ∧
      d.sections.isSome :=
  C1_amended_no_heading_main_branch narrativeText []
    (by decide) (by with_unfolding_all rfl)

/-- Claim C2, counterexample: in a crore-scaled document whose balance sheet
is populated by the document-wide fallback `_extract_from_text`, the stored
value is the raw parsed token value (5000), not the token value multiplied by
the document scale (5000 × 10⁷). -/
theorem C2_counterexample :
    (parse_financial_document croreFallbackText []).toOption.map
      (fun d => (d.scale, d.sections.map (fun s => s.balance_sheet))) =
      some (10000000, some [sampleFallbackItem]) ∧
    parse_number "5000" = some 5000 ∧
    sampleFallbackItem.current_period ≠ some (5000 * 10000000) := by
  refine ⟨by with_unfolding_all rfl, by with_unfolding_all rfl, ?_⟩
  intro h
  rw [sampleFallbackItem] at h
  simp only [Option.some_inj] at h
  norm_num at h

/-- Claim C2, amended: the table-like extractor, the key-value extractor and
the document-wide P&L fallback all store the parsed token value multiplied by
the document scale; the document-wide fallback `_extract_from_text`, however,
stores the raw parsed float with no scale applied. -/
theorem C2_amended_scaling :
    (∀ (txt : String) (scale : ℚ) (it : LineItem),
      it ∈ extract_table_like_section txt scale →
      ∃ line name vals, line ∈ candidateFrags txt ∧
        lineRaw line = some (name, vals) ∧ it.item = name ∧
        it.current_period = (vals.head?.bind parse_number).map (· * scale) ∧
        it.previous_period = (vals[1]?.bind parse_number).map (· * scale)) ∧
    (∀ (txt : String) (scale : ℚ) (kv : String × KVEntry),
      kv ∈ extract_simple_kv txt scale →
      ∃ t1 t2, kv.2 = (⟨(parse_number t1).map (· * scale),
        (Option.bind t2 parse_number).map (· * scale)⟩ : KVEntry)) ∧
    (∀ (txt : String) (scale : ℚ) (kv : String × KVEntry),
      kv ∈ extract_pnl_from_text txt scale →
      ∃ raw n, parse_number raw = some n ∧ kv.2.value = some (n * scale)) ∧
    (∀ (txt : String) (it : LineItem),
      it ∈ (extract_from_text txt).balance_sheet →
      ∃ raw v, pyFloat raw = some v ∧ it.current_period = some v) :=
  ⟨tableLike_mem_scaled, kv_mem_scaled, pnlFallback_mem_scaled,
   fallbackExtract_mem_unscaled⟩

theorem C2_amended_witness :
    (∃ line name vals, line ∈ candidateFrags "Total Assets 1,234" ∧
      lineRaw line = some (name, vals) ∧ sampleItem.item = name ∧
      sampleItem.current_period =
        (vals.head?.bind parse_number).map (· * 1000) ∧
      sampleItem.previous_period =
        (vals[1]?.bind parse_number).map (· * 1000)) ∧
    (∃ t1 t2,
      (("Revenue from operations", (⟨some 2500000, none⟩ : KVEntry)) :
        String × KVEntry).2 = (⟨(parse_number t1).map (· * 1000),
        (Option.bind t2 parse_number).map (· * 1000)⟩ : KVEntry)) ∧
    (∃ raw n, parse_number raw = some n ∧
      (("Revenue", (⟨some 900000, none⟩ : KVEntry)) :
        String × KVEntry).2.value = some (n * 1000)) ∧
    (∃ raw v, pyFloat raw = some v ∧
      sampleFallbackItem.current_period = some v) :=
  ⟨C2_amended_scaling.1 "Total Assets 1,234" 1000 sampleItem
     (by rw [show extract_table_like_section "Total Assets 1,234" 1000 =
          [sampleItem] from by with_unfolding_all rfl]
         exact List.mem_singleton.mpr rfl),
   C2_amended_scaling.2.1 "Revenue from operations 2,500" 1000 _
     (by rw [show extract_simple_kv "Revenue from operations 2,500" 1000 =
          [("Revenue from operations", (⟨some 2500000, none⟩ : KVEntry))] from
          by with_unfolding_all rfl]
         exact List.mem_singleton.mpr rfl),
   C2_amended_scaling.2.2.1 "REVENUE: 900" 1000 _
     (by rw [show extract_pnl_from_text "REVENUE: 900" 1000 =
          [("Revenue", (⟨some 900000, none⟩ : KVEntry))] from
          by with_unfolding_all rfl]
         exact List.mem_singleton.mpr rfl),
   C2_amended_scaling.2.2.2 "TOTAL ASSETS 5000" sampleFallbackItem
     (by rw [show (extract_from_text "TOTAL ASSETS 5000").balance_sheet =
          [sampleFallbackItem] from by with_unfolding_all rfl]
         exact List.mem_singleton.mpr rfl)⟩

/-- Claim C3: `parse_financial_document` raises exactly on empty
`cleaned_text` — the empty string produces the 400 bad-request error, and
every non-empty input returns a parsed document without raising. -/
theorem C3_raises_iff_empty (t : String) (tb : List (List String)) :
    (t = "" → parse_financial_document t tb =
      .error ⟨400, "Empty cleaned_text"⟩) ∧
    (t ≠ "" → ∃ d, parse_financial_document t tb = .ok d) := by
  constructor
  · intro h; simp [parse_financial_document, h]
  · intro h
    unfold parse_financial_document
    rw [if_neg h]
    dsimp only
    split
    · exact ⟨_, rfl⟩
    · exact ⟨_, rfl⟩

theorem C3_witness :
    parse_financial_document "" [] = .error ⟨400, "Empty cleaned_text"⟩ ∧
    ∃ d, parse_financial_document "x" [] = .ok d :=
  ⟨(C3_raises_iff_empty "" []).1 rfl,
   (C3_raises_iff_empty "x" []).2 (by decide)⟩

/-- Claim C4: when the parsed balance-sheet list has a TOTAL ASSETS item with
a numeric current value and at least one of TOTAL EQUITY / TOTAL LIABILITIES
(missing sides counting as zero), the returned document — parsing never
fails — carries a `validation_warning` exactly when
`|assets − (equity + liabilities)| > max(1, 0.001·|assets|)`. -/
theorem C4_balance_warning_iff (t : String) (tb : List (List String))
    (a e l : ℚ) (ta : LineItem)
    (h1 : t ≠ "")
    (h2 : ((split_into_sections t).balance_sheet.isNone &&
      (split_into_sections t).pnl.isNone) = false)
    (hta : findItem (mainSections t).balance_sheet "TOTAL ASSETS" = some ta)
    (hav : ta.current_period = some a)
    (hside : ((findItem (mainSections t).balance_sheet "TOTAL EQUITY").isNone &&
      (findItem (mainSections t).balance_sheet "TOTAL LIABILITIES").isNone) = false)
    (he : sideValue (findItem (mainSections t).balance_sheet "TOTAL EQUITY") = some e)
    (hl : sideValue (findItem (mainSections t).balance_sheet "TOTAL LIABILITIES") = some l) :
    ∃ d, parse_financial_document t tb = .ok d ∧
      (d.validation_warning ≠ none ↔ max 1 (|a| / 1000) < |a - (e + l)|) := by
  have hparse : parse_financial_document t tb =
      .ok { meta := extract_meta t (detect_document_scale t).2
            scale := (detect_document_scale t).1
            sections := some (mainSections t), tables := tb, kpis := none
            validation_warning :=
              validate_basic_balance (mainSections t).balance_sheet } := by
    unfold parse_financial_document
    rw [if_neg h1]
    simp only [h2, Bool.false_eq_true, if_false]
  refine ⟨_, hparse, ?_⟩
  unfold validate_basic_balance
  rw [hta]
  simp only [hside, Bool.false_eq_true, if_false, he, hl, hav]
  by_cases hc : max 1 (|a| / 1000) < |a - (e + l)|
  · simp [hc]
  · simp [hc]

theorem C4_witness :
    (∃ d, parse_financial_document balancedText [] = .ok d ∧
      (d.validation_warning ≠ none ↔
        max 1 (|(1000 : ℚ)| / 1000) < |(1000 : ℚ) - (600 + 400)|)) ∧
    (∃ d, parse_financial_document unbalancedText [] = .ok d ∧
      (d.validation_warning ≠ none ↔
        max 1 (|(1000 : ℚ)| / 1000) < |(1000 : ℚ) - (500 + 300)|)) :=
  ⟨C4_balance_warning_iff balancedText [] 1000 600 400
     ⟨"Total Assets", some 1000, none, "high"⟩ (by decide)
     (by with_unfolding_all rfl) (by with_unfolding_all rfl) rfl
     (by with_unfolding_all rfl) (by with_unfolding_all rfl)
     (by with_unfolding_all rfl),
   C4_balance_warning_iff unbalancedText [] 1000 500 300
     ⟨"Total Assets", some 1000, none, "high"⟩ (by decide)
     (by with_unfolding_all rfl) (by with_unfolding_all rfl) rfl
     (by with_unfolding_all rfl) (by with_unfolding_all rfl)
     (by with_unfolding_all rfl)⟩

/-- Claim C5: on the main path, the document-wide fallbacks fill only
still-empty sections — whenever section-based extraction produced a non-empty
balance sheet, P&L mapping or cash-flow mapping, the returned document keeps
that section exactly as produced (so the P&L fallback affects only an empty
P&L and no fallback finding overwrites an existing entry). -/
theorem C5_fallback_frame (t : String) (tb : List (List String)) (h1 : t ≠ "")
    (h2 : ((split_into_sections t).balance_sheet.isNone &&
      (split_into_sections t).pnl.isNone) = false) :
    ∃ d s, parse_financial_document t tb = .ok d ∧ d.sections = some s ∧
      (extract_table_like_section ((split_into_sections t).balance_sheet.getD "")
          (detect_document_scale t).1 ≠ [] →
        s.balance_sheet = extract_table_like_section
          ((split_into_sections t).balance_sheet.getD "")
          (detect_document_scale t).1) ∧
      (extract_simple_kv ((split_into_sections t).pnl.getD "")
          (detect_document_scale t).1 ≠ [] →
        s.pnl = extract_simple_kv ((split_into_sections t).pnl.getD "")
          (detect_document_scale t).1) ∧
      (extract_simple_kv ((split_into_sections t).cash_flow.getD "")
          (detect_document_scale t).1 ≠ [] →
        s.cash_flow = extract_simple_kv ((split_into_sections t).cash_flow.getD "")
          (detect_document_scale t).1) := by
  have hparse : parse_financial_document t tb =
      .ok { meta := extract_meta t (detect_document_scale t).2
            scale := (detect_document_scale t).1
            sections := some (mainSections t), tables := tb, kpis := none
            validation_warning :=
              validate_basic_balance (mainSections t).balance_sheet } := by
    unfold parse_financial_document
    rw [if_neg h1]
    simp only [h2, Bool.false_eq_true, if_false]
  refine ⟨_, mainSections t, hparse, rfl, ?_, ?_, ?_⟩
  all_goals
    unfold mainSections
    set scale := (detect_document_scale t).1 with hscale
    set secs := split_into_sections t with hsecs
    set bs0 := extract_table_like_section (secs.balance_sheet.getD "") scale with hbs0
    set pnl0 := extract_simple_kv (secs.pnl.getD "") scale with hpnl0
    set cf0 := extract_simple_kv (secs.cash_flow.getD "") scale with hcf0
    intro hne
  · have : bs0.isEmpty = false := by
      cases hb : bs0 with
      | nil => exact absurd hb hne
      | cons a l => rfl
    simp [this]
  · have hp : pnl0.isEmpty = false := by
      cases hb : pnl0 with
      | nil => exact absurd hb hne
      | cons a l => rfl
    by_cases hb : bs0.isEmpty <;> simp [hb, hp]
  · have hc : cf0.isEmpty = false := by
      cases hb : cf0 with
      | nil => exact absurd hb hne
      | cons a l => rfl
    by_cases hb : bs0.isEmpty <;> simp [hb, hc]

theorem C5_witness :
    ∃ d s, parse_financial_document balancedText [] = .ok d ∧
      d.sections = some s ∧
      (extract_table_like_section
          ((split_into_sections balancedText).balance_sheet.getD "")
          (detect_document_scale balancedText).1 ≠ [] →
        s.balance_sheet = extract_table_like_section
          ((split_into_sections balancedText).balance_sheet.getD "")
          (detect_document_scale balancedText).1) ∧
      (extract_simple_kv ((split_into_sections balancedText).pnl.getD "")
          (detect_document_scale balancedText).1 ≠ [] →
        s.pnl = extract_simple_kv
          ((split_into_sections balancedText).pnl.getD "")
          (detect_document_scale balancedText).1) ∧
      (extract_simple_kv ((split_into_sections balancedText).cash_flow.getD "")
          (detect_document_scale balancedText).1 ≠ [] →
        s.cash_flow = extract_simple_kv
          ((split_into_sections balancedText).cash_flow.getD "")
          (detect_document_scale balancedText).1) :=
  C5_fallback_frame balancedText [] (by decide) (by with_unfolding_all rfl)

/-- Claim C6, counterexample: the two fiscal-year branch expressions of
`_detect_period_hint` disagree at year 2099, which the period pattern
`20\d{2}` accepts: the March branch computes `(2099+1) % 100 = 0` while the
other-months branch computes `2099 % 100 + 1 = 100`, so "March 31, 2099"
yields the label "Q4 FY0" where the other branch would have produced 100. -/
theorem C6_counterexample :
    detect_period_hint "March 31, 2099" = some "Q4 FY0" ∧
    fyMarch 2099 = 0 ∧ fyOther 2099 = 100 ∧ fyMarch 2099 ≠ fyOther 2099 :=
  ⟨rfl, rfl, rfl, by decide⟩

/-- Claim C6, amended: for every year from 2000 through 2098 the two
fiscal-year branch expressions of `_detect_period_hint` agree; they differ
only at the boundary year 2099 of the `20\d{2}` pattern. -/
theorem C6_amended_fy_branches_agree (y : Nat) (h1 : 2000 ≤ y)
    (h2 : y ≤ 2098) : fyMarch y = fyOther y := by
  unfold fyMarch fyOther
  omega

theorem C6_amended_witness : fyMarch 2024 = fyOther 2024 :=
  C6_amended_fy_branches_agree 2024 (by decide) (by decide)

/-- Claim C7: the scale-correction branch of `compute_kpis` (triggered when
net profit exceeds five times revenue) is output-equivalent to removing it —
the rescaled local values are dead, so the emitted metrics, raw values and
summary are identical with or without the branch, for every input. -/
theorem C7_correction_is_noop :
    ∀ p : ParsedDoc, compute_kpis p = compute_kpis_without_correction p :=
  fun _ => rfl

/-- Claim C8: in `aggregate_periods`, when at least two period keys exist,
every metric that is numeric in both of the two lexicographically-latest
periods receives `growth_pct = round2((latest − previous)/|previous| · 100)`,
with a zero previous value producing a null growth. -/
theorem C8_growth_formula (docs : List ParsedDoc) (m : Metric) (lv pv : ℚ)
    (h2 : 2 ≤ (sortStrings ((buildTimeseries docs).map (fun kv => kv.1))).length)
    (hl : getMetric (kpisAt (buildTimeseries docs)
      (lastD (sortStrings ((buildTimeseries docs).map (fun kv => kv.1))))) m =
      some lv)
    (hp : getMetric (kpisAt (buildTimeseries docs)
      (secondLastD (sortStrings ((buildTimeseries docs).map (fun kv => kv.1))))) m =
      some pv) :
    ∃ c, (aggregate_periods docs).comparisons = some c ∧
      c.periods =
        [secondLastD (sortStrings ((buildTimeseries docs).map (fun kv => kv.1))),
         lastD (sortStrings ((buildTimeseries docs).map (fun kv => kv.1)))] ∧
      c.metrics m = some ⟨lv, pv,
        if pv = 0 then none else some (round2 ((lv - pv) / |pv| * 100))⟩ := by
  unfold aggregate_periods
  simp only [h2, if_pos]
  refine ⟨_, rfl, rfl, ?_⟩
  dsimp only
  unfold compareMetrics
  rw [hl, hp]

theorem C8_witness :
    (∃ c, (aggregate_periods [trendDocPrev, trendDocLatest]).comparisons =
        some c ∧ c.periods = ["FY24", "FY25"] ∧
      c.metrics .revenue =
        some ⟨120, 100, some (round2 ((120 - 100) / |(100 : ℚ)| * 100))⟩) ∧
    round2 ((120 - 100) / |(100 : ℚ)| * 100) = 20 ∧
    (∃ c, (aggregate_periods [trendDocZero, trendDocLatest]).comparisons =
        some c ∧ c.metrics .revenue = some ⟨120, 0, none⟩) := by
  refine ⟨?_, by with_unfolding_all rfl, ?_⟩
  · exact C8_growth_formula [trendDocPrev, trendDocLatest] .revenue 120 100
      (by with_unfolding_all decide) (by with_unfolding_all rfl)
      (by with_unfolding_all rfl)
  · obtain ⟨c, hc, _, hm⟩ := C8_growth_formula [trendDocZero, trendDocLatest]
      .revenue 120 0 (by with_unfolding_all decide)
      (by with_unfolding_all rfl) (by with_unfolding_all rfl)
    exact ⟨c, hc, by rw [hm]; norm_num⟩

/-- Claim C9: parsing is a pure, deterministic function of its
`(cleaned_text, tables)` input — the module holds no mutable state (its
pattern tables are constants), so two invocations on the same input return
identical outputs. -/
theorem C9_parse_deterministic :
    ∀ (t : String) (tb : List (List String)),
      parse_financial_document t tb = parse_financial_document t tb :=
  fun _ _ => rfl

/-- Claim C10: ratio computation in `compute_kpis` is guarded by Python
truthiness, so a zero-valued input suppresses every ratio that depends on it
while the raw zero value is still emitted: zero net profit removes the margin
and return-on-equity ratios, zero revenue removes margin and asset turnover,
zero equity removes debt-to-equity, equity-to-assets and return-on-equity,
and zero assets removes equity-to-assets and asset turnover. -/
theorem C10_zero_truthiness_guard (p : ParsedDoc) (r : ℚ) :
    (extract_numeric (pnlOf p) ["PROFIT", "NET PROFIT", "PROFIT FOR THE PERIOD"] = some 0 →
      extract_numeric (pnlOf p) ["REVENUE", "TOTAL INCOME"] = some r → r ≠ 0 →
      (compute_kpis p).net_profit = some 0 ∧
      (compute_kpis p).net_profit_margin_pct = none ∧
      (compute_kpis p).return_on_equity_pct = none) ∧
    (extract_numeric (pnlOf p) ["REVENUE", "TOTAL INCOME"] = some 0 →
      (compute_kpis p).revenue = some 0 ∧
      (compute_kpis p).net_profit_margin_pct = none ∧
      (compute_kpis p).asset_turnover_ratio = none) ∧
    (find_single_value (bsOf p) ["TOTAL EQUITY"] = some 0 →
      (compute_kpis p).total_equity = some 0 ∧
      (compute_kpis p).debt_to_equity = none ∧
      (compute_kpis p).equity_to_assets_pct = none ∧
      (compute_kpis p).return_on_equity_pct = none) ∧
    (find_single_value (bsOf p) ["TOTAL ASSETS"] = some 0 →
      (compute_kpis p).total_assets = some 0 ∧
      (compute_kpis p).equity_to_assets_pct = none ∧
      (compute_kpis p).asset_turnover_ratio = none) := by
  refine ⟨fun hnp hr hr0 => ?_, fun hr => ?_, fun he => ?_, fun ha => ?_⟩
  · unfold compute_kpis
    simp [hnp, truthyQ]
  · unfold compute_kpis
    simp [hr, truthyQ]
  · unfold compute_kpis
    simp [he, truthyQ]
  · unfold compute_kpis
    simp [ha, truthyQ]

theorem C10_witness :
    ((compute_kpis zeroProfitDoc).net_profit = some 0 ∧
     (compute_kpis zeroProfitDoc).net_profit_margin_pct = none ∧
     (compute_kpis zeroProfitDoc).return_on_equity_pct = none) ∧
    ((compute_kpis zeroRatioDoc).revenue = some 0 ∧
     (compute_kpis zeroRatioDoc).net_profit_margin_pct = none ∧
     (compute_kpis zeroRatioDoc).asset_turnover_ratio = none) ∧
    ((compute_kpis zeroRatioDoc).total_equity = some 0 ∧
     (compute_kpis zeroRatioDoc).debt_to_equity = none ∧
     (compute_kpis zeroRatioDoc).equity_to_assets_pct = none ∧
     (compute_kpis zeroRatioDoc).return_on_equity_pct = none) ∧
    ((compute_kpis zeroRatioDoc).total_assets = some 0 ∧
     (compute_kpis zeroRatioDoc).equity_to_assets_pct = none ∧
     (compute_kpis zeroRatioDoc).asset_turnover_ratio = none) :=
  ⟨(C10_zero_truthiness_guard zeroProfitDoc 5).1 rfl rfl (by norm_num),
   (C10_zero_truthiness_guard zeroRatioDoc 5).2.1 rfl,
   (C10_zero_truthiness_guard zeroRatioDoc 5).2.2.1 rfl,
   (C10_zero_truthiness_guard zeroRatioDoc 5).2.2.2 rfl⟩
